import Mathlib

/-!
Verification of the ensemble aggregation engine of the AI-Voice-Detection
service (`detect.py` / `app.py`), shallowly embedded in Lean 4.

Floats are modelled by rationals, Python dicts returned to callers by
association lists over a small value type, and a per-model inference call
that may raise by an `Option` result.
-/

/-- One (label, score) pair of a model's returned classification list. -/
structure LabelScore where
  label : String
  score : ℚ
deriving DecidableEq

/-- One roster entry together with the outcome of its inference call:
`result = none` models the inference call raising an exception,
`result = some rs` the returned (label, score) list. -/
structure ModelRun where
  name : String
  weight : ℚ
  result : Option (List LabelScore)
deriving DecidableEq

/-- The per-model vote record built in the loop of `analyze_audio`
(`{"name": ..., "ai_prob": ..., "verdict": ...}`). -/
structure ModelVote where
  name : String
  ai_prob : ℚ
  verdict : String
deriving DecidableEq

/-- A Python value as it appears in the dictionaries returned by the code. -/
inductive PyVal where
  | str : String → PyVal
  | rat : ℚ → PyVal
deriving DecidableEq

/-- The dictionaries `analyze_audio` and the HTTP layer return, as ordered
key/value association lists. -/
abbrev PyDict := List (String × PyVal)

/-- Python's `str.lower()` on the string's characters (the labels in play
are ASCII). -/
def pyLower (s : String) : String := String.mk (s.data.map Char.toLower)

/-- Python's `str.strip()`: drop leading and trailing whitespace. -/
def pyStrip (s : String) : String :=
  String.mk (((s.data.dropWhile Char.isWhitespace).reverse.dropWhile Char.isWhitespace).reverse)

/-- `label_clean = r['label'].lower().strip()` from `detect.py`. -/
def labelClean (s : String) : String := pyStrip (pyLower s)

/-- `ai_labels = ["fake", "spoof", "aivoice", "artificial", "generated"]`
from `detect.py`. -/
def ai_labels : List String := ["fake", "spoof", "aivoice", "artificial", "generated"]

/-- The label-scanning loop of `analyze_audio`: `ai_score` is the score of
the first pair whose label, lower-cased and stripped, is in `ai_labels`;
it stays `0.0` when no label matches. -/
def aiScore : List LabelScore → ℚ
  | [] => 0
  | r :: rs => if labelClean r.label ∈ ai_labels then r.score else aiScore rs

/-- `verdict = "AI" if ai_score > 0.5 else "HUMAN"` from `detect.py`. -/
def verdictOf (s : ℚ) : String := if s > 1/2 then "AI" else "HUMAN"

/-- One iteration of the ensemble loop: a raised inference call leaves the
accumulator unchanged; a successful one appends a vote and adds the
weighted contribution to `total_score` and the weight to `total_weight`. -/
def loopStep (acc : List ModelVote × ℚ × ℚ) (m : ModelRun) : List ModelVote × ℚ × ℚ :=
  match m.result with
  | none => acc
  | some rs =>
      let s := aiScore rs
      (acc.1 ++ [⟨m.name, s, verdictOf s⟩], acc.2.1 + s * m.weight, acc.2.2 + m.weight)

/-- The whole voting loop of `analyze_audio`: votes, `total_score`,
`total_weight` starting from `[], 0, 0`. -/
def ensembleLoop (runs : List ModelRun) : List ModelVote × ℚ × ℚ :=
  runs.foldl loopStep ([], 0, 0)

/-- `total_weight` after the voting loop. -/
def totalWeightOf (runs : List ModelRun) : ℚ := (ensembleLoop runs).2.2

/-- `final_ensemble_score`: `total_score / total_weight` when
`total_weight > 0`, else the fail-safe `0.0`. -/
def ensembleScoreOf (runs : List ModelRun) : ℚ :=
  let st := ensembleLoop runs
  if st.2.2 > 0 then st.2.1 / st.2.2 else 0

/-- Round-half-to-even on a rational, the idealisation of Python's `round`
on the exact value. -/
def roundHalfEven (q : ℚ) : ℤ :=
  let f := ⌊q⌋
  let r := q - f
  if r < 1/2 then f
  else if 1/2 < r then f + 1
  else if f % 2 = 0 then f else f + 1

/-- `round(x, 2)`: rounding to two decimal places. -/
def round2 (q : ℚ) : ℚ := (roundHalfEven (q * 100) : ℚ) / 100

/-- The `%.1f`-style rendering used for `final_ensemble_score*100` in the
explanation text. -/
def fmt1 (q : ℚ) : String :=
  let r : ℤ := roundHalfEven (q * 10)
  if r < 0 then "-" ++ toString ((-r) / 10) ++ "." ++ toString ((-r) % 10)
  else toString (r / 10) ++ "." ++ toString (r % 10)

/-- The outcome of the success path of `analyze_audio`, before it is packed
into the returned dictionary (`confidence` is the unrounded
`class_confidence` local). -/
structure AnalysisOutcome where
  classification : String
  confidence : ℚ
  explanation : String
deriving DecidableEq

/-- Steps 4, 5 of `analyze_audio` (aggregation, classification, confidence,
explanation synthesis), mirroring lines 113-144 of `detect.py`. -/
def analyzeCore (centroid : ℚ) (runs : List ModelRun) : AnalysisOutcome :=
  let st := ensembleLoop runs
  let votes := st.1
  let final_ensemble_score := if st.2.2 > 0 then st.2.1 / st.2.2 else 0
  let is_ai := final_ensemble_score > 1/2
  let final_classification := if is_ai then "AI_GENERATED" else "HUMAN"
  let class_confidence := if is_ai then final_ensemble_score else 1 - final_ensemble_score
  let ai_votes_count := votes.countP (fun v => v.verdict == "AI")
  let total_models := votes.length
  let e1 := "Ensemble Analysis: " ++ toString ai_votes_count ++ "/" ++ toString total_models
              ++ " models flagged this audio as AI-generated."
  let e2 := "Aggregated Score: " ++ fmt1 (final_ensemble_score * 100) ++ "%."
  let e3 := if is_ai then
              (if centroid > 2000 then
                "High-frequency spectral artifacts consistent with neural vocoders detected."
              else
                "Deep learning pattern matching identified non-biological features.")
            else
              "Acoustic analysis confirms natural vocal resonance and organic production."
  let final_explanation := String.intercalate " " [e1, e2, e3]
  ⟨final_classification, class_confidence, final_explanation⟩

/-- The dictionary returned on the success path of `analyze_audio`
(`confidenceScore` is rounded to 2 decimal places there). -/
def toDict (o : AnalysisOutcome) : PyDict :=
  [("classification", PyVal.str o.classification),
   ("confidenceScore", PyVal.rat (round2 o.confidence)),
   ("explanation", PyVal.str o.explanation)]

/-- `analyze_audio`: the outer `try` body is modelled by an `Except` input,
`.ok (centroid, runs)` when decoding and feature extraction succeed (with
the per-model inference outcomes inside `runs`), `.error e` when an
exception escapes to the outer handler. The `language` argument is
accepted and never used, as in the source. -/
def analyze_audio (language : String)
    (pipeline : Except String (ℚ × List ModelRun)) : PyDict :=
  match pipeline with
  | .ok (centroid, runs) => toDict (analyzeCore centroid runs)
  | .error e =>
      [("classification", PyVal.str "HUMAN"),
       ("confidenceScore", PyVal.rat 0),
       ("error", PyVal.str e),
       ("explanation", PyVal.str "Analysis failed due to internal error.")]

/- The HTTP layer (`app.py`). -/

/-- The fields of a `VoiceDetectionRequest`. -/
structure Request where
  language : String
  audioFormat : String
  audioBase64 : String
deriving DecidableEq

/-- An HTTP response: status code plus JSON body as an ordered dictionary. -/
structure HttpResponse where
  statusCode : Nat
  body : PyDict
deriving DecidableEq

/-- `JSONResponse(status_code=400, content={"status": "error", "message": msg})`. -/
def errorResponse (msg : String) : HttpResponse :=
  ⟨400, [("status", PyVal.str "error"), ("message", PyVal.str msg)]⟩

/-- `str()` of a Python value (error values in the dicts are strings). -/
def pyStr : PyVal → String
  | .str s => s
  | .rat q => toString q

/-- `result[key]` on the dictionaries built here, with an inert default for
the (unreachable on these dicts) `KeyError` case. -/
def getKey (d : PyDict) (k : String) : PyVal := (d.lookup k).getD (PyVal.str "")

/-- The `/api/voice-detection` handler `detect_voice` of `app.py`.
`b64` is the outcome of `base64.b64decode` (`none` models it raising),
`pipeline` the outcome of the audio pipeline fed to `analyze_audio`. -/
def detect_voice (req : Request) (b64 : Option (List Nat))
    (pipeline : Except String (ℚ × List ModelRun)) : HttpResponse :=
  if pyLower req.audioFormat ≠ "mp3" then
    errorResponse "Only MP3 format is supported."
  else
    match b64 with
    | none => errorResponse "Invalid Base64 encoding."
    | some audio_data =>
        if audio_data = [] then errorResponse "Empty audio data."
        else
          let result := analyze_audio req.language pipeline
          match result.lookup "error" with
          | some v => errorResponse (pyStr v)
          | none =>
              ⟨200,
               [("status", PyVal.str "success"),
                ("language", PyVal.str req.language),
                ("classification", getKey result "classification"),
                ("confidenceScore", getKey result "confidenceScore"),
                ("explanation", getKey result "explanation")]⟩

/- Analysis helpers: closed forms for the voting loop. -/

/-- The vote a single roster entry produces, when its inference succeeds. -/
def voteOf (m : ModelRun) : Option ModelVote :=
  m.result.map fun rs => ⟨m.name, aiScore rs, verdictOf (aiScore rs)⟩

/-- A single roster entry's contribution to `total_score`. -/
def contribScore (m : ModelRun) : ℚ :=
  match m.result with
  | none => 0
  | some rs => aiScore rs * m.weight

/-- A single roster entry's contribution to `total_weight`. -/
def contribWeight (m : ModelRun) : ℚ :=
  match m.result with
  | none => 0
  | some _ => m.weight

/-- The spec's wording of per-model label normalization: the AI-probability
is the score of the first (label, score) pair whose cleaned label lies in
the recognized set, and `0.0` when none matches. -/
def aiScoreSpec (rs : List LabelScore) : ℚ :=
  ((rs.find? fun r => decide (labelClean r.label ∈ ai_labels)).map LabelScore.score).getD 0

/-- Hypothesis: every score reported by every successful model lies in [0, 1]. -/
def ScoresIn01 (runs : List ModelRun) : Prop :=
  ∀ m ∈ runs, ∀ rs, m.result = some rs → ∀ r ∈ rs, 0 ≤ r.score ∧ r.score ≤ 1

/-- Hypothesis: every roster weight is non-negative. -/
def WeightsNonneg (runs : List ModelRun) : Prop :=
  ∀ m ∈ runs, 0 ≤ m.weight

lemma foldl_loopStep (runs : List ModelRun) (vs : List ModelVote) (ts tw : ℚ) :
    runs.foldl loopStep (vs, ts, tw) =
      (vs ++ runs.filterMap voteOf,
       ts + (runs.map contribScore).sum,
       tw + (runs.map contribWeight).sum) := by
  induction runs generalizing vs ts tw with
  | nil => simp
  | cons m ms ih =>
      cases h : m.result with
      | none =>
          simp [List.foldl_cons, loopStep, h, ih, voteOf, contribScore, contribWeight]
      | some rs =>
          simp [List.foldl_cons, loopStep, h, ih, voteOf, contribScore, contribWeight,
                add_assoc]

lemma ensembleLoop_eq (runs : List ModelRun) :
    ensembleLoop runs =
      (runs.filterMap voteOf,
       (runs.map contribScore).sum,
       (runs.map contribWeight).sum) := by
  simpa using foldl_loopStep runs [] 0 0

/-- C2: a model's AI-probability is the score of the first (label, score)
pair whose label, lower-cased and stripped, lies exactly in
{"fake", "spoof", "aivoice", "artificial", "generated"}; with no matching
pair it is exactly 0.0; and labels equal after cleaning are matched
identically. -/
theorem aiScore_first_match_C2 :
    (∀ rs : List LabelScore, aiScore rs = aiScoreSpec rs) ∧
    (∀ l₁ l₂ : String, ∀ s : ℚ, ∀ rs : List LabelScore,
       labelClean l₁ = labelClean l₂ →
       aiScore (⟨l₁, s⟩ :: rs) = aiScore (⟨l₂, s⟩ :: rs)) := by
  constructor
  · intro rs
    induction rs with
    | nil => rfl
    | cons r rs ih =>
        by_cases h : labelClean r.label ∈ ai_labels
        · simp [aiScore, aiScoreSpec, List.find?, h]
        · simp [aiScore, aiScoreSpec, List.find?, h, ih]
  · intro l₁ l₂ s rs h
    simp [aiScore, h]

/-- C2 witness: label "FAKE " with score 7/10 behaves exactly like "fake",
and the first matching pair wins. -/
theorem aiScore_first_match_C2_witness :
    labelClean "FAKE " = labelClean "fake" ∧
    aiScore [⟨"FAKE ", 7/10⟩] = aiScore [⟨"fake", 7/10⟩] ∧
    aiScore [⟨"FAKE ", 7/10⟩] = aiScoreSpec [⟨"FAKE ", 7/10⟩] :=
  ⟨by decide,
   aiScore_first_match_C2.2 "FAKE " "fake" (7/10) [] (by decide),
   aiScore_first_match_C2.1 [⟨"FAKE ", 7/10⟩]⟩

/-- C3: both decision thresholds are strictly greater-than 0.5: a recorded
vote's verdict is AI exactly when its AI-probability exceeds 0.5, the final
classification is AI_GENERATED exactly when the ensemble score exceeds 0.5,
and a score of exactly 0.5 yields HUMAN at both levels. -/
theorem strict_thresholds_C3 :
    (∀ s : ℚ, verdictOf s = "AI" ↔ 1/2 < s) ∧
    (∀ runs : List ModelRun, ∀ v ∈ (ensembleLoop runs).1,
       (v.verdict = "AI" ↔ 1/2 < v.ai_prob)) ∧
    (∀ centroid : ℚ, ∀ runs : List ModelRun,
       ((analyzeCore centroid runs).classification = "AI_GENERATED" ↔
          1/2 < ensembleScoreOf runs)) ∧
    verdictOf (1/2) = "HUMAN" ∧
    (∀ centroid : ℚ, ∀ runs : List ModelRun, ensembleScoreOf runs = 1/2 →
       (analyzeCore centroid runs).classification = "HUMAN") := by
  have hverdict : ∀ s : ℚ, verdictOf s = "AI" ↔ 1/2 < s := by
    intro s
    by_cases h : 1/2 < s
    · simp [verdictOf, h]
    · simp [verdictOf, h]
  have hcls : ∀ centroid : ℚ, ∀ runs : List ModelRun,
      (analyzeCore centroid runs).classification =
        (if 1/2 < ensembleScoreOf runs then "AI_GENERATED" else "HUMAN") :=
    fun _ _ => rfl
  refine ⟨hverdict, ?_, ?_, by simp [verdictOf], ?_⟩
  · intro runs v hv
    rw [ensembleLoop_eq] at hv
    rcases List.mem_filterMap.1 hv with ⟨m, _, heq⟩
    rcases h : m.result with _ | rs
    · simp [voteOf, h] at heq
    · simp only [voteOf, h, Option.map_some', Option.some.injEq] at heq
      rw [← heq]
      exact hverdict _
  · intro centroid runs
    rw [hcls]
    by_cases h : 1/2 < ensembleScoreOf runs
    · simp [h]
    · simp [h]
  · intro centroid runs h
    rw [hcls, h]
    simp

/-- A one-model roster whose model reports "fake" with score exactly 0.5. -/
def runsHalf : List ModelRun := [⟨"MelodyMachine", 1, some [⟨"fake", 1/2⟩]⟩]

/-- C3 witness: on `runsHalf` the ensemble score is exactly 0.5, the sole
vote's verdict is HUMAN, and the classification is HUMAN. -/
theorem strict_thresholds_C3_witness :
    ensembleScoreOf runsHalf = 1/2 ∧
    ModelVote.mk "MelodyMachine" (1/2) "HUMAN" ∈ (ensembleLoop runsHalf).1 ∧
    ((ModelVote.mk "MelodyMachine" (1/2) "HUMAN").verdict = "AI" ↔
       1/2 < (ModelVote.mk "MelodyMachine" ((1:ℚ)/2) "HUMAN").ai_prob) ∧
    (analyzeCore 0 runsHalf).classification = "HUMAN" := by
  have hfake : labelClean "fake" ∈ ai_labels := by decide
  have hscore : ensembleScoreOf runsHalf = 1/2 := by
    simp [ensembleScoreOf, ensembleLoop, loopStep, runsHalf, aiScore, hfake]
  have hmem : ModelVote.mk "MelodyMachine" (1/2) "HUMAN" ∈ (ensembleLoop runsHalf).1 := by
    simp [ensembleLoop, loopStep, runsHalf, aiScore, verdictOf, hfake]
  exact ⟨hscore, hmem, strict_thresholds_C3.2.1 runsHalf _ hmem,
         strict_thresholds_C3.2.2.2.2 0 runsHalf hscore⟩

lemma aiScore_bounds (rs : List LabelScore)
    (h : ∀ r ∈ rs, 0 ≤ r.score ∧ r.score ≤ 1) :
    0 ≤ aiScore rs ∧ aiScore rs ≤ 1 := by
  induction rs with
  | nil => simp [aiScore]
  | cons r rs ih =>
      rw [aiScore]
      by_cases hc : labelClean r.label ∈ ai_labels
      · simpa [hc] using h r (by simp)
      · simpa [hc] using ih fun r hr => h r (by simp [hr])

lemma ensembleScoreOf_bounds (runs : List ModelRun)
    (hs : ScoresIn01 runs) (hw : WeightsNonneg runs) :
    0 ≤ ensembleScoreOf runs ∧ ensembleScoreOf runs ≤ 1 := by
  have hnn : ∀ m ∈ runs, 0 ≤ contribScore m := by
    intro m hm
    rcases h : m.result with _ | rs
    · simp [contribScore, h]
    · have := aiScore_bounds rs (hs m hm rs h)
      simpa [contribScore, h] using mul_nonneg this.1 (hw m hm)
  have hle : ∀ m ∈ runs, contribScore m ≤ contribWeight m := by
    intro m hm
    rcases h : m.result with _ | rs
    · simp [contribScore, contribWeight, h]
    · have := aiScore_bounds rs (hs m hm rs h)
      simpa [contribScore, contribWeight, h] using
        mul_le_of_le_one_left (hw m hm) this.2
  have hS : 0 ≤ (runs.map contribScore).sum :=
    List.sum_nonneg (by simpa using hnn)
  have hSW : (runs.map contribScore).sum ≤ (runs.map contribWeight).sum :=
    List.sum_le_sum hle
  rw [ensembleScoreOf, ensembleLoop_eq]
  by_cases hpos : (runs.map contribWeight).sum > 0
  · simp only [hpos, if_true]
    exact ⟨div_nonneg hS hpos.le, (div_le_one hpos).2 hSW⟩
  · simp [hpos]

lemma le_roundHalfEven (q : ℚ) (n : ℤ) (h : (n:ℚ) ≤ q) : n ≤ roundHalfEven q := by
  have hf : n ≤ ⌊q⌋ := Int.le_floor.2 h
  rw [roundHalfEven]
  split_ifs <;> omega

lemma roundHalfEven_le (q : ℚ) (n : ℤ) (h : q ≤ n) : roundHalfEven q ≤ n := by
  have hf : ⌊q⌋ ≤ n := by
    have := Int.floor_le_floor (α := ℚ) h
    simpa using this
  have hf2 : (⌊q⌋ : ℚ) ≤ q := Int.floor_le q
  rw [roundHalfEven]
  split_ifs with h1 h2 h3
  · exact hf
  · have : (⌊q⌋ : ℚ) < (n : ℚ) := by
      have hr : (1:ℚ)/2 ≤ q - ⌊q⌋ := le_of_not_gt h1
      have : (⌊q⌋ : ℚ) + 1/2 ≤ q := by linarith
      linarith
    have : ⌊q⌋ < n := by exact_mod_cast this
    omega
  · exact hf
  · have : (⌊q⌋ : ℚ) < (n : ℚ) := by
      have hr : (1:ℚ)/2 ≤ q - ⌊q⌋ := le_of_not_gt h1
      have : (⌊q⌋ : ℚ) + 1/2 ≤ q := by linarith
      linarith
    have : ⌊q⌋ < n := by exact_mod_cast this
    omega

lemma round2_bounds (q : ℚ) (h0 : 0 ≤ q) (h1 : q ≤ 1) :
    0 ≤ round2 q ∧ round2 q ≤ 1 := by
  have hlo : (0:ℤ) ≤ roundHalfEven (q * 100) :=
    le_roundHalfEven _ 0 (by push_cast; linarith)
  have hhi : roundHalfEven (q * 100) ≤ 100 :=
    roundHalfEven_le _ 100 (by push_cast; linarith)
  constructor
  · exact div_nonneg (by exact_mod_cast hlo) (by norm_num)
  · rw [round2, div_le_one (by norm_num)]
    exact_mod_cast hhi

lemma lookup_classification (o : AnalysisOutcome) :
    (toDict o).lookup "classification" = some (PyVal.str o.classification) := rfl

lemma lookup_confidenceScore (o : AnalysisOutcome) :
    (toDict o).lookup "confidenceScore" = some (PyVal.rat (round2 o.confidence)) := rfl

lemma lookup_explanation (o : AnalysisOutcome) :
    (toDict o).lookup "explanation" = some (PyVal.str o.explanation) := rfl

lemma lookup_error_toDict (o : AnalysisOutcome) :
    (toDict o).lookup "error" = none := rfl

lemma classification_eq (centroid : ℚ) (runs : List ModelRun) :
    (analyzeCore centroid runs).classification =
      (if 1/2 < ensembleScoreOf runs then "AI_GENERATED" else "HUMAN") := rfl

lemma confidence_eq (centroid : ℚ) (runs : List ModelRun) :
    (analyzeCore centroid runs).confidence =
      (if 1/2 < ensembleScoreOf runs then ensembleScoreOf runs
       else 1 - ensembleScoreOf runs) := rfl

/-- C4: on the success path the returned `confidenceScore` is
`round(ensembleScore, 2)` when the classification is AI_GENERATED and
`round(1 - ensembleScore, 2)` when it is HUMAN; with per-model scores in
[0, 1] and non-negative weights it lies in [0, 1]. -/
theorem confidence_formula_C4 (language : String) (centroid : ℚ) (runs : List ModelRun) :
    ((analyzeCore centroid runs).classification = "AI_GENERATED" →
       (analyze_audio language (.ok (centroid, runs))).lookup "confidenceScore" =
         some (PyVal.rat (round2 (ensembleScoreOf runs)))) ∧
    ((analyzeCore centroid runs).classification = "HUMAN" →
       (analyze_audio language (.ok (centroid, runs))).lookup "confidenceScore" =
         some (PyVal.rat (round2 (1 - ensembleScoreOf runs)))) ∧
    (ScoresIn01 runs → WeightsNonneg runs →
       (analyze_audio language (.ok (centroid, runs))).lookup "confidenceScore" =
         some (PyVal.rat (round2 ((analyzeCore centroid runs).confidence))) ∧
       0 ≤ round2 ((analyzeCore centroid runs).confidence) ∧
       round2 ((analyzeCore centroid runs).confidence) ≤ 1) := by
  have hlook : (analyze_audio language (.ok (centroid, runs))).lookup "confidenceScore" =
      some (PyVal.rat (round2 ((analyzeCore centroid runs).confidence))) :=
    lookup_confidenceScore _
  refine ⟨?_, ?_, ?_⟩
  · intro hcl
    rw [classification_eq] at hcl
    by_cases h : 1/2 < ensembleScoreOf runs
    · rw [hlook, confidence_eq, if_pos h]
    · rw [if_neg h] at hcl
      exact absurd hcl (by decide)
  · intro hcl
    rw [classification_eq] at hcl
    by_cases h : 1/2 < ensembleScoreOf runs
    · rw [if_pos h] at hcl
      exact absurd hcl (by decide)
    · rw [hlook, confidence_eq, if_neg h]
  · intro hs hw
    have hb := ensembleScoreOf_bounds runs hs hw
    have hconf : 0 ≤ (analyzeCore centroid runs).confidence ∧
        (analyzeCore centroid runs).confidence ≤ 1 := by
      rw [confidence_eq]
      by_cases h : 1/2 < ensembleScoreOf runs
      · rw [if_pos h]
        exact hb
      · rw [if_neg h]
        constructor
        · linarith [hb.2]
        · linarith [hb.1]
    have := round2_bounds _ hconf.1 hconf.2
    exact ⟨hlook, this.1, this.2⟩

/-- A one-model roster whose model reports "fake" with score 0.9. -/
def runsFake9 : List ModelRun := [⟨"MelodyMachine", 1, some [⟨"fake", 9/10⟩]⟩]

/-- C4 witness: on `runsFake9` the classification is AI_GENERATED, the
returned confidence is `round(ensembleScore, 2)`, and it lies in [0, 1]. -/
theorem confidence_formula_C4_witness :
    (analyzeCore 0 runsFake9).classification = "AI_GENERATED" ∧
    (analyze_audio "English" (.ok (0, runsFake9))).lookup "confidenceScore" =
      some (PyVal.rat (round2 (ensembleScoreOf runsFake9))) ∧
    ScoresIn01 runsFake9 ∧ WeightsNonneg runsFake9 ∧
    0 ≤ round2 ((analyzeCore 0 runsFake9).confidence) ∧
    round2 ((analyzeCore 0 runsFake9).confidence) ≤ 1 := by
  have hfake : labelClean "fake" ∈ ai_labels := by decide
  have hscore : ensembleScoreOf runsFake9 = 9/10 := by
    simp [ensembleScoreOf, ensembleLoop, loopStep, runsFake9, aiScore, hfake]
  have hcl : (analyzeCore 0 runsFake9).classification = "AI_GENERATED" := by
    rw [classification_eq, hscore]
    norm_num
  have hs : ScoresIn01 runsFake9 := by
    intro m hm rs hrs r hr
    simp only [runsFake9, List.mem_singleton] at hm
    subst hm
    simp only [Option.some.injEq] at hrs
    subst hrs
    simp only [List.mem_singleton] at hr
    subst hr
    norm_num
  have hw : WeightsNonneg runsFake9 := by
    intro m hm
    simp only [runsFake9, List.mem_singleton] at hm
    subst hm
    norm_num
  exact ⟨hcl, (confidence_formula_C4 "English" 0 runsFake9).1 hcl, hs, hw,
         ((confidence_formula_C4 "English" 0 runsFake9).2.2 hs hw).2.1,
         ((confidence_formula_C4 "English" 0 runsFake9).2.2 hs hw).2.2⟩

/-- C1 counterexample: with an empty roster (total weight 0) and no escaping
exception, `analyze_audio` returns classification HUMAN but confidenceScore
1.0, not 0.0 as claimed. -/
theorem zero_weight_C1_counterexample :
    totalWeightOf [] = 0 ∧
    (analyze_audio "English" (.ok (0, []))).lookup "classification" =
      some (PyVal.str "HUMAN") ∧
    (analyze_audio "English" (.ok (0, []))).lookup "confidenceScore" =
      some (PyVal.rat 1) ∧
    (analyze_audio "English" (.ok (0, []))).lookup "confidenceScore" ≠
      some (PyVal.rat 0) := by
  have hscore : ensembleScoreOf ([] : List ModelRun) = 0 := by
    simp [ensembleScoreOf, ensembleLoop]
  have hcl : (analyzeCore 0 ([] : List ModelRun)).classification = "HUMAN" := by
    rw [classification_eq, hscore]
    norm_num
  have hconf : (analyzeCore 0 ([] : List ModelRun)).confidence = 1 := by
    rw [confidence_eq, hscore]
    norm_num
  have hround : round2 (1 : ℚ) = 1 := by
    norm_num [round2, roundHalfEven]
  refine ⟨rfl, ?_, ?_, ?_⟩
  · rw [show analyze_audio "English" (.ok (0, [])) = toDict (analyzeCore 0 []) from rfl,
        lookup_classification, hcl]
  · rw [show analyze_audio "English" (.ok (0, [])) = toDict (analyzeCore 0 []) from rfl,
        lookup_confidenceScore, hconf, hround]
  · rw [show analyze_audio "English" (.ok (0, [])) = toDict (analyzeCore 0 []) from rfl,
        lookup_confidenceScore, hconf, hround]
    simp

/-- C1 amended: when `total_weight = 0` after the voting loop and no exception
escapes, `analyze_audio` returns classification HUMAN with confidenceScore
exactly 1.0 (`round(1 - 0.0, 2)`), not 0.0. -/
theorem zero_weight_C1 (language : String) (centroid : ℚ) (runs : List ModelRun)
    (h : totalWeightOf runs = 0) :
    (analyze_audio language (.ok (centroid, runs))).lookup "classification" =
      some (PyVal.str "HUMAN") ∧
    (analyze_audio language (.ok (centroid, runs))).lookup "confidenceScore" =
      some (PyVal.rat 1) := by
  have hscore : ensembleScoreOf runs = 0 := by
    rw [ensembleScoreOf]
    rw [totalWeightOf] at h
    simp [h]
  have hcl : (analyzeCore centroid runs).classification = "HUMAN" := by
    rw [classification_eq, hscore]
    norm_num
  have hconf : (analyzeCore centroid runs).confidence = 1 := by
    rw [confidence_eq, hscore]
    norm_num
  have hround : round2 (1 : ℚ) = 1 := by
    norm_num [round2, roundHalfEven]
  constructor
  · rw [show analyze_audio language (.ok (centroid, runs)) =
          toDict (analyzeCore centroid runs) from rfl,
        lookup_classification, hcl]
  · rw [show analyze_audio language (.ok (centroid, runs)) =
          toDict (analyzeCore centroid runs) from rfl,
        lookup_confidenceScore, hconf, hround]

/-- C1 witness: the amended statement applied to the empty roster. -/
theorem zero_weight_C1_witness :
    totalWeightOf [] = 0 ∧
    (analyze_audio "Tamil" (.ok (0, []))).lookup "classification" =
      some (PyVal.str "HUMAN") ∧
    (analyze_audio "Tamil" (.ok (0, []))).lookup "confidenceScore" =
      some (PyVal.rat 1) :=
  ⟨rfl, (zero_weight_C1 "Tamil" 0 [] rfl).1, (zero_weight_C1 "Tamil" 0 [] rfl).2⟩

/-- C5: every pipeline failure is converted into the fail-safe dictionary
(classification HUMAN, confidenceScore 0.0, the fixed explanation, plus an
error field), and the returned dictionary carries an error field exactly
when that total-failure path was taken. -/
theorem never_raises_C5 (language : String) :
    (∀ e, analyze_audio language (.error e) =
       [("classification", PyVal.str "HUMAN"),
        ("confidenceScore", PyVal.rat 0),
        ("error", PyVal.str e),
        ("explanation", PyVal.str "Analysis failed due to internal error.")]) ∧
    (∀ p : Except String (ℚ × List ModelRun),
       (((analyze_audio language p).lookup "error").isSome ↔ ∃ e, p = .error e)) := by
  refine ⟨fun e => rfl, fun p => ?_⟩
  rcases p with e | ⟨centroid, runs⟩
  · simp [analyze_audio]
  · constructor
    · intro h
      rw [show analyze_audio language (.ok (centroid, runs)) =
            toDict (analyzeCore centroid runs) from rfl,
          lookup_error_toDict] at h
      simp at h
    · rintro ⟨e, he⟩
      cases he

/-- C5 witness: the fail-safe value at the concrete error "decode failed". -/
theorem never_raises_C5_witness :
    analyze_audio "English" (.error "decode failed") =
      [("classification", PyVal.str "HUMAN"),
       ("confidenceScore", PyVal.rat 0),
       ("error", PyVal.str "decode failed"),
       ("explanation", PyVal.str "Analysis failed due to internal error.")] ∧
    ((analyze_audio "English" (.error "decode failed")).lookup "error").isSome :=
  ⟨(never_raises_C5 "English").1 "decode failed",
   ((never_raises_C5 "English").2 (.error "decode failed")).2 ⟨"decode failed", rfl⟩⟩

/-- C6: a model whose inference call raises contributes nothing: the loop
state (votes, total_score, total_weight) and the whole returned result are
the same as if the model were absent from the roster. -/
theorem failed_model_skip_C6 (language : String) (centroid : ℚ)
    (pre post : List ModelRun) (m : ModelRun) (h : m.result = none) :
    ensembleLoop (pre ++ m :: post) = ensembleLoop (pre ++ post) ∧
    analyze_audio language (.ok (centroid, pre ++ m :: post)) =
      analyze_audio language (.ok (centroid, pre ++ post)) := by
  have hloop : ensembleLoop (pre ++ m :: post) = ensembleLoop (pre ++ post) := by
    rw [ensembleLoop, ensembleLoop, List.foldl_append, List.foldl_append,
        List.foldl_cons, show loopStep (pre.foldl loopStep ([], 0, 0)) m =
          pre.foldl loopStep ([], 0, 0) by rw [loopStep, h]]
  refine ⟨hloop, ?_⟩
  show toDict (analyzeCore centroid (pre ++ m :: post)) =
    toDict (analyzeCore centroid (pre ++ post))
  rw [show analyzeCore centroid (pre ++ m :: post) =
        analyzeCore centroid (pre ++ post) by
      simp only [analyzeCore]
      rw [hloop]]

/-- C6 witness: dropping a failing second model from a two-model roster
changes nothing. -/
theorem failed_model_skip_C6_witness :
    ensembleLoop [⟨"MelodyMachine", 1, some [⟨"fake", 9/10⟩]⟩, ⟨"Hemgg", 1, none⟩] =
      ensembleLoop [⟨"MelodyMachine", 1, some [⟨"fake", 9/10⟩]⟩] ∧
    analyze_audio "English"
        (.ok (0, [⟨"MelodyMachine", 1, some [⟨"fake", 9/10⟩]⟩, ⟨"Hemgg", 1, none⟩])) =
      analyze_audio "English" (.ok (0, [⟨"MelodyMachine", 1, some [⟨"fake", 9/10⟩]⟩])) :=
  failed_model_skip_C6 "English" 0 [⟨"MelodyMachine", 1, some [⟨"fake", 9/10⟩]⟩] []
    ⟨"Hemgg", 1, none⟩ rfl

/-- C7 counterexample: on a concrete successful request the returned
dictionary has no "votes" key at all. -/
theorem votes_field_C7_counterexample :
    (analyze_audio "English"
        (.ok (0, [⟨"MelodyMachine", 1, some [⟨"fake", 9/10⟩]⟩]))).lookup "votes" =
      none := rfl

/-- C7 amended: the votes sequence is built internally in roster order
(one ModelVote per successful model), but the result returned to the caller
contains only classification, confidenceScore and explanation — no votes
field. -/
theorem votes_internal_C7 (language : String) (centroid : ℚ) (runs : List ModelRun) :
    (analyze_audio language (.ok (centroid, runs))).map Prod.fst =
      ["classification", "confidenceScore", "explanation"] ∧
    (ensembleLoop runs).1 = runs.filterMap voteOf := by
  exact ⟨rfl, by rw [ensembleLoop_eq]⟩

/-- C8: with identical per-model outputs and weights, the classification and
confidenceScore do not depend on the spectral centroid or on the declared
language: the language changes nothing at all, and the centroid can only
change the explanatory wording. -/
theorem noninterference_C8 :
    (∀ language₁ language₂ : String, ∀ p : Except String (ℚ × List ModelRun),
       analyze_audio language₁ p = analyze_audio language₂ p) ∧
    (∀ language : String, ∀ centroid₁ centroid₂ : ℚ, ∀ runs : List ModelRun,
       (analyze_audio language (.ok (centroid₁, runs))).lookup "classification" =
         (analyze_audio language (.ok (centroid₂, runs))).lookup "classification" ∧
       (analyze_audio language (.ok (centroid₁, runs))).lookup "confidenceScore" =
         (analyze_audio language (.ok (centroid₂, runs))).lookup "confidenceScore") := by
  refine ⟨fun _ _ p => rfl, fun language c₁ c₂ runs => ⟨?_, ?_⟩⟩
  · rw [show analyze_audio language (.ok (c₁, runs)) =
          toDict (analyzeCore c₁ runs) from rfl,
        show analyze_audio language (.ok (c₂, runs)) =
          toDict (analyzeCore c₂ runs) from rfl,
        lookup_classification, lookup_classification,
        classification_eq, classification_eq]
  · rw [show analyze_audio language (.ok (c₁, runs)) =
          toDict (analyzeCore c₁ runs) from rfl,
        show analyze_audio language (.ok (c₂, runs)) =
          toDict (analyzeCore c₂ runs) from rfl,
        lookup_confidenceScore, lookup_confidenceScore,
        confidence_eq, confidence_eq]

/-- C9: permuting the roster while keeping each model's outputs and weight
leaves the ensemble score, the whole analysis outcome (classification,
confidence, and the k/n counts in the explanation) and the returned
dictionary unchanged. -/
theorem permutation_invariance_C9 (language : String) (centroid : ℚ)
    (runs runs' : List ModelRun) (h : runs.Perm runs') :
    ensembleScoreOf runs = ensembleScoreOf runs' ∧
    analyzeCore centroid runs = analyzeCore centroid runs' ∧
    analyze_audio language (.ok (centroid, runs)) =
      analyze_audio language (.ok (centroid, runs')) := by
  have hts : (runs.map contribScore).sum = (runs'.map contribScore).sum :=
    (h.map contribScore).sum_eq
  have htw : (runs.map contribWeight).sum = (runs'.map contribWeight).sum :=
    (h.map contribWeight).sum_eq
  have hperm : (runs.filterMap voteOf).Perm (runs'.filterMap voteOf) :=
    h.filterMap voteOf
  have hcount : (runs.filterMap voteOf).countP (fun v => v.verdict == "AI") =
      (runs'.filterMap voteOf).countP (fun v => v.verdict == "AI") :=
    hperm.countP_eq _
  have hlen : (runs.filterMap voteOf).length = (runs'.filterMap voteOf).length :=
    hperm.length_eq
  have hscore : ensembleScoreOf runs = ensembleScoreOf runs' := by
    rw [ensembleScoreOf, ensembleScoreOf, ensembleLoop_eq, ensembleLoop_eq]
    simp only [hts, htw]
  have hcore : analyzeCore centroid runs = analyzeCore centroid runs' := by
    simp only [analyzeCore, ensembleLoop_eq]
    rw [hts, htw, hcount, hlen]
  exact ⟨hscore, hcore, by
    show toDict (analyzeCore centroid runs) = toDict (analyzeCore centroid runs')
    rw [hcore]⟩

/-- Two concrete roster entries (spec scenario B weights and scores). -/
def runMelody : ModelRun := ⟨"MelodyMachine", 1, some [⟨"fake", 4/5⟩]⟩

/-- The higher-weighted large model of the roster. -/
def runGust : ModelRun := ⟨"Gustking-XLSR", 6/5, some [⟨"fake", 9/10⟩]⟩

/-- C9 witness: swapping the two models of a two-model roster changes
nothing observable. -/
theorem permutation_invariance_C9_witness :
    ensembleScoreOf [runMelody, runGust] = ensembleScoreOf [runGust, runMelody] ∧
    analyze_audio "English" (.ok (0, [runMelody, runGust])) =
      analyze_audio "English" (.ok (0, [runGust, runMelody])) := by
  have h := permutation_invariance_C9 "English" 0 [runMelody, runGust]
    [runGust, runMelody] (List.Perm.swap runGust runMelody [])
  exact ⟨h.1, h.2.2⟩

/-- C10: whenever the detector's result carries an error field, the endpoint
answers HTTP 400 with body {"status": "error", "message": <error string>};
and a result carrying an error field is never delivered as a success
response. -/
theorem http_error_mapping_C10 (req : Request) (b64 : Option (List Nat))
    (p : Except String (ℚ × List ModelRun)) :
    (∀ audio_data e,
       pyLower req.audioFormat = "mp3" → b64 = some audio_data → audio_data ≠ [] →
       (analyze_audio req.language p).lookup "error" = some (PyVal.str e) →
       detect_voice req b64 p =
         ⟨400, [("status", PyVal.str "error"), ("message", PyVal.str e)]⟩) ∧
    (((analyze_audio req.language p).lookup "error").isSome →
       (detect_voice req b64 p).body.lookup "status" ≠ some (PyVal.str "success")) := by
  constructor
  · intro audio_data e hfmt hb64 hne herr
    rw [detect_voice.eq_def, if_neg (by rw [hfmt]; intro hc; exact hc rfl), hb64]
    simp only [hne, if_neg, if_false]
    rw [herr]
    rfl
  · intro hsome
    rw [detect_voice.eq_def]
    by_cases hfmt : pyLower req.audioFormat ≠ "mp3"
    · rw [if_pos hfmt]
      intro hc
      simp [errorResponse, List.lookup] at hc
    · rw [if_neg hfmt]
      rcases b64 with _ | audio_data
      · intro hc
        simp [errorResponse, List.lookup] at hc
      · simp only
        by_cases hne : audio_data = []
        · rw [if_pos hne]
          intro hc
          simp [errorResponse, List.lookup] at hc
        · rw [if_neg hne]
          rcases herr : (analyze_audio req.language p).lookup "error" with _ | v
          · rw [herr] at hsome
            simp at hsome
          · simp only [herr]
            intro hc
            simp [errorResponse, List.lookup] at hc

/-- C10 witness: a request whose pipeline fails with "decode failed" gets a
400 error response with that message. -/
theorem http_error_mapping_C10_witness :
    pyLower "mp3" = "mp3" ∧
    ([0] : List Nat) ≠ [] ∧
    (analyze_audio "English" (.error "decode failed")).lookup "error" =
      some (PyVal.str "decode failed") ∧
    detect_voice ⟨"English", "mp3", "QUJD"⟩ (some [0]) (.error "decode failed") =
      ⟨400, [("status", PyVal.str "error"), ("message", PyVal.str "decode failed")]⟩ :=
  ⟨by decide, by simp, rfl,
   (http_error_mapping_C10 ⟨"English", "mp3", "QUJD"⟩ (some [0])
       (.error "decode failed")).1 [0] "decode failed" (by decide) rfl (by simp) rfl⟩
